import Mathlib

/-!
Verification of the browser-side task-board logic of the happy3 repository.

The JavaScript sources under src/static/js are shallowly embedded below:
pure client-side computations (SLA classification in kanban.js
getSLAStatus, bucket construction and sorting in kanban.js renderTasks,
CSV field escaping in archive.js exportToCSV) become Lean functions over
the parsed values the browser would hold (timestamps as integer epoch
milliseconds, task fields as strings), and the effectful mutation flows
(updateTask, confirmDelete, sendReply, confirmDelegation in kanban.js,
playSummary / stopSpeaking in news.js) become explicit state passing or
trace-producing functions parameterised by the network outcome of each
fetch call.
-/

namespace Happy3

/-- A task as consumed by the kanban view model (spec section 3).
The string fields mirror the JSON fields the client reads; created_at is
the epoch-millisecond value of the parsed date (the code only ever uses
it through new Date(...) subtraction). -/
structure Task where
  id : Nat
  status : String
  triage_category : String
  priority : String
  project : String
  sender : String
  created_at : Int
  deriving DecidableEq, Repr

/-! ## SLA classification (kanban.js getSLAStatus, lines 392-416) -/

/-- Milliseconds in a day, the divisor 1000*60*60*24 from getSLAStatus. -/
def msPerDay : Int := 1000 * 60 * 60 * 24

/-- daysElapsed = Math.floor(diffTime / (1000*60*60*24)); Int.fdiv is
floor division, matching Math.floor of the real quotient for integer
diffTime. -/
def daysElapsed (diffTime : Int) : Int := Int.fdiv diffTime msPerDay

/-- The classification branch of getSLAStatus: diffTime is now - received
in milliseconds, slaDays the configured threshold.  The source initialises
status to "On Time" and overwrites it in the two if branches, which is the
if / else-if chain below. -/
def getSLAStatus (diffTime slaDays : Int) : String :=
  let d := daysElapsed diffTime
  if d > slaDays then "Overdue"
  else if d ≥ slaDays - 1 then "At Risk"
  else "On Time"

/-! ## Bucket construction and sorting (kanban.js renderTasks, lines 279-349) -/

/-- The six render buckets built by renderTasks: three executive-view
buckets keyed by triage_category and three kanban-view buckets keyed by
status. -/
structure Cols where
  quick : List Task
  deep : List Task
  waiting : List Task
  todo : List Task
  doing : List Task
  paused : List Task
  deriving DecidableEq, Repr

/-- Line 295: if(t.status === "closed" || t.status === "archived") return. -/
def excludedTask (t : Task) : Bool :=
  t.status == "closed" || t.status == "archived"

/-- Line 298: if (filterProject && t.project !== filterProject) return.
The select value is a string, "" (falsy) meaning no filter. -/
def failsProject (fp : String) (t : Task) : Bool :=
  fp != "" && t.project != fp

/-- Line 299: if (filterSender && t.sender !== filterSender) return. -/
def failsSender (fs : String) (t : Task) : Bool :=
  fs != "" && t.sender != fs

/-- A task survives the common exclusions and both filters. -/
def keepTask (fp fs : String) (t : Task) : Bool :=
  !excludedTask t && !failsProject fp t && !failsSender fs t

/-- Lines 301-305, the executive-view push: the triage_category if /
else-if chain, with the else fallback also pushing into deep. -/
def execStep (c : Cols) (t : Task) : Cols :=
  if t.triage_category == "waiting_for" then { c with waiting := c.waiting ++ [t] }
  else if t.triage_category == "quick_action" then { c with quick := c.quick ++ [t] }
  else if t.triage_category == "deep_work" then { c with deep := c.deep ++ [t] }
  else { c with deep := c.deep ++ [t] }

/-- Lines 307-310, the kanban-view push: the status if / else-if chain;
a status outside the three pushes nowhere. -/
def kanbanStep (c : Cols) (t : Task) : Cols :=
  if t.status == "new" then { c with todo := c.todo ++ [t] }
  else if t.status == "in_progress" then { c with doing := c.doing ++ [t] }
  else if t.status == "paused" then { c with paused := c.paused ++ [t] }
  else c

/-- One iteration of the tasks.forEach body of renderTasks (lines
293-311): early returns for exclusions and filters, then the executive
push followed by the kanban push. -/
def renderStep (fp fs : String) (c : Cols) (t : Task) : Cols :=
  if excludedTask t then c
  else if failsProject fp t then c
  else if failsSender fs t then c
  else kanbanStep (execStep c t) t

/-- Priority rank: pMap = \x7bhigh:3, medium:2, low:1\x7d and
pMap[p] || 1, so "low" and any unrecognized priority both rank 1. -/
def prioRank (p : String) : Int :=
  if p = "high" then 3
  else if p = "medium" then 2
  else if p = "low" then 1
  else 1

/-- The comparator sortFn of renderTasks (lines 313-318): priority rank
descending first, then created_at descending (new Date(b) - new Date(a)). -/
def sortFn (a b : Task) : Int :=
  if prioRank a.priority ≠ prioRank b.priority then prioRank b.priority - prioRank a.priority
  else b.created_at - a.created_at

/-- a may appear no later than b under the comparator (sortFn a b <= 0). -/
def taskLE (a b : Task) : Prop := sortFn a b ≤ 0

instance : DecidableRel taskLE := fun a b => inferInstanceAs (Decidable (sortFn a b ≤ 0))

/-- Array.prototype.sort with the comparator sortFn; modelled by a
sorting algorithm for the induced total preorder taskLE (the JS engine
sort also produces a taskLE-sorted permutation). -/
def sortTasks (l : List Task) : List Task := List.insertionSort taskLE l

/-- renderTasks (lines 279-349): fold the forEach body over the snapshot
starting from six empty buckets, then sort every bucket with sortFn. -/
def renderTasks (fp fs : String) (tasks : List Task) : Cols :=
  let raw := tasks.foldl (renderStep fp fs) ⟨[], [], [], [], [], []⟩
  { quick := sortTasks raw.quick
    deep := sortTasks raw.deep
    waiting := sortTasks raw.waiting
    todo := sortTasks raw.todo
    doing := sortTasks raw.doing
    paused := sortTasks raw.paused }

/-- The six buckets of a Cols value as a list, in source order. -/
def sixBuckets (c : Cols) : List (List Task) :=
  [c.quick, c.deep, c.waiting, c.todo, c.doing, c.paused]

/-- Membership predicate of the quick bucket: kept by the filters and
triage_category is "quick_action" (and not "waiting_for", which is tested
first in the chain). -/
def pQuick (fp fs : String) (t : Task) : Bool :=
  keepTask fp fs t && !(t.triage_category == "waiting_for") && t.triage_category == "quick_action"

/-- Membership predicate of the waiting bucket. -/
def pWaiting (fp fs : String) (t : Task) : Bool :=
  keepTask fp fs t && t.triage_category == "waiting_for"

/-- Membership predicate of the deep bucket: every kept task whose
category is neither "waiting_for" nor "quick_action" lands here, the
"deep_work" branch and the unconditional else fallback alike. -/
def pDeep (fp fs : String) (t : Task) : Bool :=
  keepTask fp fs t && !(t.triage_category == "waiting_for") && !(t.triage_category == "quick_action")

/-- Membership predicate of the todo bucket. -/
def pTodo (fp fs : String) (t : Task) : Bool :=
  keepTask fp fs t && t.status == "new"

/-- Membership predicate of the doing bucket. -/
def pDoing (fp fs : String) (t : Task) : Bool :=
  keepTask fp fs t && !(t.status == "new") && t.status == "in_progress"

/-- Membership predicate of the paused bucket. -/
def pPaused (fp fs : String) (t : Task) : Bool :=
  keepTask fp fs t && !(t.status == "new") && !(t.status == "in_progress") && t.status == "paused"

/-! ## CSV export escaping (archive.js exportToCSV, lines 219-255)

Fields are modelled as lists of characters. -/

/-- String(str).replace(/(\r\n|\n|\r)/gm, " "): the regex alternation is
leftmost-first, so a CRLF pair becomes one space and every lone LF or CR
becomes one space. -/
def stripNewlines : List Char → List Char
  | [] => []
  | '\r' :: '\n' :: rest => ' ' :: stripNewlines rest
  | '\n' :: rest => ' ' :: stripNewlines rest
  | '\r' :: rest => ' ' :: stripNewlines rest
  | c :: rest => c :: stripNewlines rest

/-- newStr.replace(/"/g, i.e. every double-quote character doubled. -/
def doubleQuotes : List Char → List Char
  | [] => []
  | '"' :: rest => '"' :: '"' :: doubleQuotes rest
  | c :: rest => c :: doubleQuotes rest

/-- escapeCSV (lines 230-235): an empty (falsy) field is exported as a
literal pair of double quotes; otherwise newlines are replaced by spaces
and the field is wrapped in double quotes with internal quotes doubled
only when it contains a comma. -/
def escapeCSV (s : List Char) : List Char :=
  if s = [] then ['"', '"']
  else
    let ns := stripNewlines s
    if ',' ∈ ns then '"' :: (doubleQuotes ns ++ ['"']) else ns

/-! ## Mutation round-trip traces (kanban.js)

Each fetch-driven flow is embedded as a function from the outcome of its
network calls to the linear sequence of observable steps it performs.
An Outcome is what a fetch call produced: a 2xx response, a non-2xx
response (fetch resolves, response.ok is false), or a network failure
(the fetch promise rejects). -/

inductive Outcome where
  | success
  | httpError
  | networkError
  deriving DecidableEq, Repr

/-- An observable step of a flow: a network request being issued, the
allTasks snapshot being replaced wholesale by a fetched response, a full
re-render, or a user-visible message with its auto-dismiss delay in
milliseconds (showMessage removes the element after 3000 ms). -/
inductive Step where
  | request (method : String) (url : String)
  | snapshotReplace
  | render
  | message (kind : String) (dismissMs : Nat)
  deriving DecidableEq, Repr

/-- The URL /api/tasks/id used by PUT and DELETE. -/
def taskUrl (id : Nat) : String := "/api/tasks/" ++ toString id

/-- The URL /api/tasks/id/reply used by the reply POST. -/
def replyUrl (id : Nat) : String := "/api/tasks/" ++ toString id ++ "/reply"

/-- getTasks (lines 908-919): GET /api/tasks; on success replace the
snapshot, repopulate filters and re-render; on any failure (thrown for a
non-ok response, or a rejected fetch) the catch shows a 3s error message
and the snapshot is left untouched. -/
def getTasksSteps : Outcome → List Step
  | .success => [.request "GET" "/api/tasks", .snapshotReplace, .render]
  | .httpError => [.request "GET" "/api/tasks", .message "error" 3000]
  | .networkError => [.request "GET" "/api/tasks", .message "error" 3000]

/-- updateTask (lines 699-727), also the single path used by status
changes, category changes and drag-and-drop: one PUT; on success await
getTasks (whose outcome is tasksO) and show a 3s success message; on a
non-ok response or network failure the catch shows a 3s error message. -/
def updateTaskSteps (id : Nat) (o tasksO : Outcome) : List Step :=
  .request "PUT" (taskUrl id) ::
    match o with
    | .success => getTasksSteps tasksO ++ [.message "success" 3000]
    | .httpError => [.message "error" 3000]
    | .networkError => [.message "error" 3000]

/-- confirmDelete (lines 1277-1287): one DELETE with no response.ok check
and no try/catch.  If the response arrives (ok or not) the function
closes the modals, fires getTasks and shows the "Deleted" success
message regardless of the response status; if the fetch rejects, the
awaited rejection escapes the function and nothing after the fetch runs. -/
def confirmDeleteSteps (id : Nat) (o tasksO : Outcome) : List Step :=
  match o with
  | .networkError => [.request "DELETE" (taskUrl id)]
  | _ => .request "DELETE" (taskUrl id) :: getTasksSteps tasksO ++ [.message "success" 3000]

/-- True when confirmDelete lets an exception escape as an unhandled
promise rejection (a rejected fetch, since there is no try/catch). -/
def confirmDeleteEscapes : Outcome → Bool
  | .networkError => true
  | _ => false

/-- The update staged by a delegation:
\x7btriage_category: "waiting_for", delegated_to: name\x7d. -/
structure Upd where
  triage_category : String
  delegated_to : String
  deriving DecidableEq, Repr

/-- sendReply (lines 1289-1335): one POST to /api/tasks/id/reply; on
success, if a pendingTaskUpdate is staged it is applied via updateTask
(outcomes updO / tasks1O), then getTasks runs again (tasks2O) and a 3s
success message is shown; on a non-ok response or network failure the
catch shows a 3s error message and nothing else happens. -/
def sendReplySteps (id : Nat) (pending : Option Upd) (replyO updO tasks1O tasks2O : Outcome) :
    List Step :=
  .request "POST" (replyUrl id) ::
    match replyO with
    | .success =>
        (match pending with
         | some _ => updateTaskSteps id updO tasks1O
         | none => []) ++ getTasksSteps tasks2O ++ [.message "success" 3000]
    | .httpError => [.message "error" 3000]
    | .networkError => [.message "error" 3000]

/-- confirmDelegation (lines 1401-1441) on its happy path: it populates
the reply draft, stages the pending update, shows a success message and
switches tabs.  It performs no fetch at all. -/
def confirmDelegationSteps (_name : String) : List Step :=
  [.message "success" 3000]

/-- The pendingTaskUpdate value written by confirmDelegation (lines
1431-1434). -/
def confirmDelegationPending (name : String) : Option Upd :=
  some { triage_category := "waiting_for", delegated_to := name }

/-- copyReply (lines 615-655) effect on pendingTaskUpdate: the task is
looked up in allTasks first and a missing task returns early leaving the
staged update untouched; otherwise pendingTaskUpdate is reset to null
before any per-type handling, for every reply type including "delegate". -/
def copyReplyPending (tasks : List Task) (taskId : Nat) (_ty : String)
    (st : Option Upd) : Option Upd :=
  match tasks.find? (fun t => t.id == taskId) with
  | none => st
  | some _ => none

/-- openTaskModal (lines 1167-1256) effect on pendingTaskUpdate: same
shape, the task is looked up first and on success the staged update is
reset to null. -/
def openTaskModalPending (tasks : List Task) (taskId : Nat)
    (st : Option Upd) : Option Upd :=
  match tasks.find? (fun t => t.id == taskId) with
  | none => st
  | some _ => none

/-- True when a step is a state-changing request to the backend. -/
def isMutation : Step → Bool
  | .request m _ => m == "PUT" || m == "POST" || m == "DELETE"
  | _ => false

/-- Number of state-changing backend requests in a trace. -/
def mutCount (l : List Step) : Nat := (l.filter isMutation).length

/-! ## Audio playback (news.js playSummary lines 331-374, stopSpeaking
lines 379-401)

Buttons are identified by Nat; the state holds the shared currentAudio
(identified by the Nat passed for the freshly constructed Audio object)
and the list of button ids currently carrying the "playing" class. -/

structure AudioState where
  current : Option Nat
  playing : List Nat
  deriving DecidableEq, Repr

/-- stopSpeaking(btnEl): pause and clear currentAudio if present; then
reset either the given button or, with no argument, every button marked
as playing. -/
def stopSpeaking (btn : Option Nat) (s : AudioState) : AudioState :=
  let s1 : AudioState := { s with current := none }
  match btn with
  | some b => { s1 with playing := s1.playing.filter (fun x => x ≠ b) }
  | none => { s1 with playing := [] }

/-- playSummary(btnEl) with fresh the identity of the new Audio object:
if this button is already playing, stop it and return; otherwise stop
any globally playing audio first, then start the new audio and mark the
button as playing (classList.add, so no duplicate entry). -/
def playSummary (b fresh : Nat) (s : AudioState) : AudioState :=
  if b ∈ s.playing then stopSpeaking (some b) s
  else
    let s1 := if s.current.isSome then stopSpeaking none s else s
    { s1 with
        current := some fresh
        playing := if b ∈ s1.playing then s1.playing else s1.playing ++ [b] }

/-- The single-playback invariant: at most one button carries the
"playing" style, and with no shared audio no button does. -/
def audioInv (s : AudioState) : Prop :=
  s.playing.length ≤ 1 ∧ (s.current = none → s.playing = [])

/-! ## Theorems -/

/-- Claim C1: getSLAStatus computes days-elapsed as the floor of the
wall-clock difference in days and classifies the task "On Time" when
days-elapsed < slaDays - 1, "At Risk" when days-elapsed lies in the
closed interval [slaDays - 1, slaDays], and "Overdue" when days-elapsed
exceeds slaDays; with slaDays = 4, elapsed 3 is "At Risk", elapsed 5 is
"Overdue" and elapsed 1 is "On Time". -/
theorem getSLAStatus_classification :
    (∀ diff sla : Int,
      (getSLAStatus diff sla = "On Time" ↔ daysElapsed diff < sla - 1) ∧
      (getSLAStatus diff sla = "At Risk" ↔
        sla - 1 ≤ daysElapsed diff ∧ daysElapsed diff ≤ sla) ∧
      (getSLAStatus diff sla = "Overdue" ↔ sla < daysElapsed diff)) ∧
    getSLAStatus (3 * msPerDay) 4 = "At Risk" ∧
    getSLAStatus (5 * msPerDay) 4 = "Overdue" ∧
    getSLAStatus (1 * msPerDay) 4 = "On Time" := by
  refine ⟨?_, by decide, by decide, by decide⟩
  intro diff sla
  simp only [getSLAStatus]
  split_ifs with h1 h2 <;>
    refine ⟨?_, ?_, ?_⟩ <;> constructor <;> intro h <;>
    first
      | rfl
      | omega
      | (exact absurd h (by decide))

/-- The comparator order taskLE unfolded into the composite key it
implements: strictly higher priority rank first, equal ranks broken by
larger (more recent) created_at. -/
theorem taskLE_iff (a b : Task) :
    taskLE a b ↔
      (prioRank b.priority < prioRank a.priority ∨
       (prioRank a.priority = prioRank b.priority ∧ b.created_at ≤ a.created_at)) := by
  unfold taskLE sortFn
  split_ifs with h <;> omega

instance : IsTotal Task taskLE :=
  ⟨by intro a b; rw [taskLE_iff, taskLE_iff]; omega⟩

instance : IsTrans Task taskLE :=
  ⟨by intro a b c hab hbc; rw [taskLE_iff] at *; omega⟩

/-- Every bucket sorted by sortFn is pairwise ordered under taskLE. -/
theorem sortTasks_pairwise (l : List Task) : (sortTasks l).Pairwise taskLE :=
  List.sorted_insertionSort taskLE l

/-- Sorting does not change which tasks a bucket holds. -/
theorem mem_sortTasks {a : Task} {l : List Task} : a ∈ sortTasks l ↔ a ∈ l :=
  (List.perm_insertionSort taskLE l).mem_iff

theorem execStep_quick (c : Cols) (t : Task) :
    (execStep c t).quick =
      c.quick ++
        (if !(t.triage_category == "waiting_for") && t.triage_category == "quick_action"
         then [t] else []) := by
  unfold execStep
  split_ifs <;> simp_all

theorem execStep_waiting (c : Cols) (t : Task) :
    (execStep c t).waiting =
      c.waiting ++ (if t.triage_category == "waiting_for" then [t] else []) := by
  unfold execStep
  split_ifs <;> simp_all

theorem execStep_deep (c : Cols) (t : Task) :
    (execStep c t).deep =
      c.deep ++
        (if !(t.triage_category == "waiting_for") && !(t.triage_category == "quick_action")
         then [t] else []) := by
  unfold execStep
  split_ifs <;> simp_all

theorem execStep_todo (c : Cols) (t : Task) : (execStep c t).todo = c.todo := by
  unfold execStep; split_ifs <;> rfl

theorem execStep_doing (c : Cols) (t : Task) : (execStep c t).doing = c.doing := by
  unfold execStep; split_ifs <;> rfl

theorem execStep_paused (c : Cols) (t : Task) : (execStep c t).paused = c.paused := by
  unfold execStep; split_ifs <;> rfl

theorem kanbanStep_todo (c : Cols) (t : Task) :
    (kanbanStep c t).todo = c.todo ++ (if t.status == "new" then [t] else []) := by
  unfold kanbanStep
  split_ifs <;> simp_all

theorem kanbanStep_doing (c : Cols) (t : Task) :
    (kanbanStep c t).doing =
      c.doing ++ (if !(t.status == "new") && t.status == "in_progress" then [t] else []) := by
  unfold kanbanStep
  split_ifs <;> simp_all

theorem kanbanStep_paused (c : Cols) (t : Task) :
    (kanbanStep c t).paused =
      c.paused ++
        (if !(t.status == "new") && !(t.status == "in_progress") && t.status == "paused"
         then [t] else []) := by
  unfold kanbanStep
  split_ifs <;> simp_all

theorem kanbanStep_quick (c : Cols) (t : Task) : (kanbanStep c t).quick = c.quick := by
  unfold kanbanStep; split_ifs <;> rfl

theorem kanbanStep_deep (c : Cols) (t : Task) : (kanbanStep c t).deep = c.deep := by
  unfold kanbanStep; split_ifs <;> rfl

theorem kanbanStep_waiting (c : Cols) (t : Task) : (kanbanStep c t).waiting = c.waiting := by
  unfold kanbanStep; split_ifs <;> rfl

theorem renderStep_quick (fp fs : String) (c : Cols) (t : Task) :
    (renderStep fp fs c t).quick = c.quick ++ (if pQuick fp fs t then [t] else []) := by
  unfold renderStep
  split_ifs with h1 h2 h3 <;>
    simp_all [kanbanStep_quick, execStep_quick, pQuick, keepTask]

theorem renderStep_deep (fp fs : String) (c : Cols) (t : Task) :
    (renderStep fp fs c t).deep = c.deep ++ (if pDeep fp fs t then [t] else []) := by
  unfold renderStep
  split_ifs with h1 h2 h3 <;>
    simp_all [kanbanStep_deep, execStep_deep, pDeep, keepTask]

theorem renderStep_waiting (fp fs : String) (c : Cols) (t : Task) :
    (renderStep fp fs c t).waiting = c.waiting ++ (if pWaiting fp fs t then [t] else []) := by
  unfold renderStep
  split_ifs with h1 h2 h3 <;>
    simp_all [kanbanStep_waiting, execStep_waiting, pWaiting, keepTask]

theorem renderStep_todo (fp fs : String) (c : Cols) (t : Task) :
    (renderStep fp fs c t).todo = c.todo ++ (if pTodo fp fs t then [t] else []) := by
  unfold renderStep
  split_ifs with h1 h2 h3 <;>
    simp_all [kanbanStep_todo, execStep_todo, pTodo, keepTask]

theorem renderStep_doing (fp fs : String) (c : Cols) (t : Task) :
    (renderStep fp fs c t).doing = c.doing ++ (if pDoing fp fs t then [t] else []) := by
  unfold renderStep
  split_ifs with h1 h2 h3 <;>
    simp_all [kanbanStep_doing, execStep_doing, pDoing, keepTask]

theorem renderStep_paused (fp fs : String) (c : Cols) (t : Task) :
    (renderStep fp fs c t).paused = c.paused ++ (if pPaused fp fs t then [t] else []) := by
  unfold renderStep
  split_ifs with h1 h2 h3 <;>
    simp_all [kanbanStep_paused, execStep_paused, pPaused, keepTask]

theorem foldl_renderStep_quick (fp fs : String) :
    ∀ (tasks : List Task) (c : Cols),
      (tasks.foldl (renderStep fp fs) c).quick = c.quick ++ tasks.filter (pQuick fp fs) := by
  intro tasks
  induction tasks with
  | nil => intro c; simp
  | cons t ts ih =>
      intro c
      rw [List.foldl_cons, ih, renderStep_quick, List.filter_cons]
      by_cases h : pQuick fp fs t <;> simp [h]

theorem foldl_renderStep_deep (fp fs : String) :
    ∀ (tasks : List Task) (c : Cols),
      (tasks.foldl (renderStep fp fs) c).deep = c.deep ++ tasks.filter (pDeep fp fs) := by
  intro tasks
  induction tasks with
  | nil => intro c; simp
  | cons t ts ih =>
      intro c
      rw [List.foldl_cons, ih, renderStep_deep, List.filter_cons]
      by_cases h : pDeep fp fs t <;> simp [h]

theorem foldl_renderStep_waiting (fp fs : String) :
    ∀ (tasks : List Task) (c : Cols),
      (tasks.foldl (renderStep fp fs) c).waiting = c.waiting ++ tasks.filter (pWaiting fp fs) := by
  intro tasks
  induction tasks with
  | nil => intro c; simp
  | cons t ts ih =>
      intro c
      rw [List.foldl_cons, ih, renderStep_waiting, List.filter_cons]
      by_cases h : pWaiting fp fs t <;> simp [h]

theorem foldl_renderStep_todo (fp fs : String) :
    ∀ (tasks : List Task) (c : Cols),
      (tasks.foldl (renderStep fp fs) c).todo = c.todo ++ tasks.filter (pTodo fp fs) := by
  intro tasks
  induction tasks with
  | nil => intro c; simp
  | cons t ts ih =>
      intro c
      rw [List.foldl_cons, ih, renderStep_todo, List.filter_cons]
      by_cases h : pTodo fp fs t <;> simp [h]

theorem foldl_renderStep_doing (fp fs : String) :
    ∀ (tasks : List Task) (c : Cols),
      (tasks.foldl (renderStep fp fs) c).doing = c.doing ++ tasks.filter (pDoing fp fs) := by
  intro tasks
  induction tasks with
  | nil => intro c; simp
  | cons t ts ih =>
      intro c
      rw [List.foldl_cons, ih, renderStep_doing, List.filter_cons]
      by_cases h : pDoing fp fs t <;> simp [h]

theorem foldl_renderStep_paused (fp fs : String) :
    ∀ (tasks : List Task) (c : Cols),
      (tasks.foldl (renderStep fp fs) c).paused = c.paused ++ tasks.filter (pPaused fp fs) := by
  intro tasks
  induction tasks with
  | nil => intro c; simp
  | cons t ts ih =>
      intro c
      rw [List.foldl_cons, ih, renderStep_paused, List.filter_cons]
      by_cases h : pPaused fp fs t <;> simp [h]

theorem renderTasks_quick (fp fs : String) (tasks : List Task) :
    (renderTasks fp fs tasks).quick = sortTasks (tasks.filter (pQuick fp fs)) := by
  simp [renderTasks, foldl_renderStep_quick]

theorem renderTasks_deep (fp fs : String) (tasks : List Task) :
    (renderTasks fp fs tasks).deep = sortTasks (tasks.filter (pDeep fp fs)) := by
  simp [renderTasks, foldl_renderStep_deep]

theorem renderTasks_waiting (fp fs : String) (tasks : List Task) :
    (renderTasks fp fs tasks).waiting = sortTasks (tasks.filter (pWaiting fp fs)) := by
  simp [renderTasks, foldl_renderStep_waiting]

theorem renderTasks_todo (fp fs : String) (tasks : List Task) :
    (renderTasks fp fs tasks).todo = sortTasks (tasks.filter (pTodo fp fs)) := by
  simp [renderTasks, foldl_renderStep_todo]

theorem renderTasks_doing (fp fs : String) (tasks : List Task) :
    (renderTasks fp fs tasks).doing = sortTasks (tasks.filter (pDoing fp fs)) := by
  simp [renderTasks, foldl_renderStep_doing]

theorem renderTasks_paused (fp fs : String) (tasks : List Task) :
    (renderTasks fp fs tasks).paused = sortTasks (tasks.filter (pPaused fp fs)) := by
  simp [renderTasks, foldl_renderStep_paused]

theorem mem_renderTasks_quick {fp fs : String} {tasks : List Task} {t : Task} :
    t ∈ (renderTasks fp fs tasks).quick ↔ t ∈ tasks ∧ pQuick fp fs t = true := by
  rw [renderTasks_quick, mem_sortTasks, List.mem_filter]

theorem mem_renderTasks_deep {fp fs : String} {tasks : List Task} {t : Task} :
    t ∈ (renderTasks fp fs tasks).deep ↔ t ∈ tasks ∧ pDeep fp fs t = true := by
  rw [renderTasks_deep, mem_sortTasks, List.mem_filter]

theorem mem_renderTasks_waiting {fp fs : String} {tasks : List Task} {t : Task} :
    t ∈ (renderTasks fp fs tasks).waiting ↔ t ∈ tasks ∧ pWaiting fp fs t = true := by
  rw [renderTasks_waiting, mem_sortTasks, List.mem_filter]

theorem mem_renderTasks_todo {fp fs : String} {tasks : List Task} {t : Task} :
    t ∈ (renderTasks fp fs tasks).todo ↔ t ∈ tasks ∧ pTodo fp fs t = true := by
  rw [renderTasks_todo, mem_sortTasks, List.mem_filter]

theorem mem_renderTasks_doing {fp fs : String} {tasks : List Task} {t : Task} :
    t ∈ (renderTasks fp fs tasks).doing ↔ t ∈ tasks ∧ pDoing fp fs t = true := by
  rw [renderTasks_doing, mem_sortTasks, List.mem_filter]

theorem mem_renderTasks_paused {fp fs : String} {tasks : List Task} {t : Task} :
    t ∈ (renderTasks fp fs tasks).paused ↔ t ∈ tasks ∧ pPaused fp fs t = true := by
  rw [renderTasks_paused, mem_sortTasks, List.mem_filter]

/-- Claim C2: within every bucket produced by renderTasks, priority rank
(high = 3, medium = 2, low or unrecognized = 1) is non-increasing along
the bucket, and on equal ranks created_at is non-increasing, i.e. a task
of strictly higher priority always appears before one of lower priority
and ties are broken by recency. -/
theorem renderTasks_bucket_sorted :
    ∀ (tasks : List Task) (fp fs : String), ∀ b ∈ sixBuckets (renderTasks fp fs tasks),
      ∀ (i j : Nat) (hi : i < b.length) (hj : j < b.length), i < j →
        prioRank (b.get ⟨j, hj⟩).priority ≤ prioRank (b.get ⟨i, hi⟩).priority ∧
        (prioRank (b.get ⟨i, hi⟩).priority = prioRank (b.get ⟨j, hj⟩).priority →
          (b.get ⟨j, hj⟩).created_at ≤ (b.get ⟨i, hi⟩).created_at) := by
  intro tasks fp fs b hb i j hi hj hij
  have hsorted : b.Pairwise taskLE := by
    simp only [sixBuckets, List.mem_cons, List.not_mem_nil, or_false] at hb
    rcases hb with rfl | rfl | rfl | rfl | rfl | rfl
    · rw [renderTasks_quick]; exact sortTasks_pairwise _
    · rw [renderTasks_deep]; exact sortTasks_pairwise _
    · rw [renderTasks_waiting]; exact sortTasks_pairwise _
    · rw [renderTasks_todo]; exact sortTasks_pairwise _
    · rw [renderTasks_doing]; exact sortTasks_pairwise _
    · rw [renderTasks_paused]; exact sortTasks_pairwise _
  have h := List.pairwise_iff_get.mp hsorted ⟨i, hi⟩ ⟨j, hj⟩ (Fin.mk_lt_mk.mpr hij)
  rw [taskLE_iff] at h
  exact ⟨by omega, fun he => by omega⟩

/-- Witness for C2: with a low-priority task created later and a
high-priority task created earlier in the same quick bucket, the element
at index 1 has rank at most that of the element at index 0. -/
theorem renderTasks_bucket_sorted_witness :
    prioRank (((renderTasks "" ""
        [⟨1, "new", "quick_action", "low", "P", "S", 5⟩,
         ⟨2, "new", "quick_action", "high", "P", "S", 3⟩]).quick.get
        ⟨1, by decide⟩).priority) ≤
      prioRank (((renderTasks "" ""
        [⟨1, "new", "quick_action", "low", "P", "S", 5⟩,
         ⟨2, "new", "quick_action", "high", "P", "S", 3⟩]).quick.get
        ⟨0, by decide⟩).priority) :=
  (renderTasks_bucket_sorted
    [⟨1, "new", "quick_action", "low", "P", "S", 5⟩,
     ⟨2, "new", "quick_action", "high", "P", "S", 3⟩] "" ""
    _ (by simp [sixBuckets]) 0 1 (by decide) (by decide) (by decide)).1

/-- Claim C3: a task whose status is "closed" or "archived" is absent
from all six render buckets, for every snapshot and every combination of
project / sender filter values. -/
theorem renderTasks_excludes_closed_archived :
    ∀ (tasks : List Task) (fp fs : String) (t : Task),
      t.status = "closed" ∨ t.status = "archived" →
      ∀ b ∈ sixBuckets (renderTasks fp fs tasks), t ∉ b := by
  intro tasks fp fs t ht b hb hmem
  simp only [sixBuckets, List.mem_cons, List.not_mem_nil, or_false] at hb
  rcases hb with rfl | rfl | rfl | rfl | rfl | rfl
  · rw [mem_renderTasks_quick] at hmem
    rcases ht with ht | ht <;>
      simp [pQuick, keepTask, excludedTask, ht] at hmem
  · rw [mem_renderTasks_deep] at hmem
    rcases ht with ht | ht <;>
      simp [pDeep, keepTask, excludedTask, ht] at hmem
  · rw [mem_renderTasks_waiting] at hmem
    rcases ht with ht | ht <;>
      simp [pWaiting, keepTask, excludedTask, ht] at hmem
  · rw [mem_renderTasks_todo] at hmem
    rcases ht with ht | ht <;>
      simp [pTodo, keepTask, excludedTask, ht] at hmem
  · rw [mem_renderTasks_doing] at hmem
    rcases ht with ht | ht <;>
      simp [pDoing, keepTask, excludedTask, ht] at hmem
  · rw [mem_renderTasks_paused] at hmem
    rcases ht with ht | ht <;>
      simp [pPaused, keepTask, excludedTask, ht] at hmem

/-- Witness for C3: a concrete closed task is not in the quick bucket of
the board rendered from a snapshot containing it. -/
theorem renderTasks_excludes_closed_archived_witness :
    (⟨1, "closed", "quick_action", "high", "P", "S", 0⟩ : Task) ∉
      (renderTasks "" "" [⟨1, "closed", "quick_action", "high", "P", "S", 0⟩]).quick :=
  renderTasks_excludes_closed_archived
    [⟨1, "closed", "quick_action", "high", "P", "S", 0⟩] "" ""
    ⟨1, "closed", "quick_action", "high", "P", "S", 0⟩ (Or.inl rfl)
    _ (by simp [sixBuckets])

/-- Claim C4: every task of the snapshot that is not excluded and passes
both filters lands in exactly one of the three executive buckets (an
unrecognized triage_category defaulting to deep), and in the kanban view
lands in todo exactly when its status is "new", in doing exactly when
"in_progress", and in paused exactly when "paused" (the data-model
statuses remaining once "closed" and "archived" are excluded), never in
two kanban buckets at once. -/
theorem renderTasks_partition :
    ∀ (tasks : List Task) (fp fs : String) (t : Task),
      t ∈ tasks →
      t.status ≠ "closed" → t.status ≠ "archived" →
      (fp = "" ∨ t.project = fp) → (fs = "" ∨ t.sender = fs) →
      let c := renderTasks fp fs tasks
      ((t ∈ c.quick ∧ t ∉ c.deep ∧ t ∉ c.waiting) ∨
       (t ∈ c.deep ∧ t ∉ c.quick ∧ t ∉ c.waiting) ∨
       (t ∈ c.waiting ∧ t ∉ c.quick ∧ t ∉ c.deep)) ∧
      (t.status = "new" → t ∈ c.todo ∧ t ∉ c.doing ∧ t ∉ c.paused) ∧
      (t.status = "in_progress" → t ∈ c.doing ∧ t ∉ c.todo ∧ t ∉ c.paused) ∧
      (t.status = "paused" → t ∈ c.paused ∧ t ∉ c.todo ∧ t ∉ c.doing) ∧
      (t.triage_category ≠ "quick_action" → t.triage_category ≠ "waiting_for" →
        t ∈ c.deep) := by
  intro tasks fp fs t hmem hcl har hfp hfs
  have hk : keepTask fp fs t = true := by
    have h1 : excludedTask t = false := by simp [excludedTask, hcl, har]
    have h2 : failsProject fp t = false := by
      rcases hfp with h | h <;> simp [failsProject, h]
    have h3 : failsSender fs t = false := by
      rcases hfs with h | h <;> simp [failsSender, h]
    simp [keepTask, h1, h2, h3]
  refine ⟨?_, fun hs => ?_, fun hs => ?_, fun hs => ?_, fun hq hw => ?_⟩
  · by_cases hw : t.triage_category = "waiting_for"
    · refine Or.inr (Or.inr ?_)
      simp [mem_renderTasks_waiting, mem_renderTasks_quick, mem_renderTasks_deep,
        pWaiting, pQuick, pDeep, hk, hw, hmem]
    · by_cases hq : t.triage_category = "quick_action"
      · refine Or.inl ?_
        simp [mem_renderTasks_waiting, mem_renderTasks_quick, mem_renderTasks_deep,
          pWaiting, pQuick, pDeep, hk, hw, hq, hmem]
      · refine Or.inr (Or.inl ?_)
        simp [mem_renderTasks_waiting, mem_renderTasks_quick, mem_renderTasks_deep,
          pWaiting, pQuick, pDeep, hk, hw, hq, hmem]
  · simp [mem_renderTasks_todo, mem_renderTasks_doing, mem_renderTasks_paused,
      pTodo, pDoing, pPaused, hk, hs, hmem]
  · simp [mem_renderTasks_todo, mem_renderTasks_doing, mem_renderTasks_paused,
      pTodo, pDoing, pPaused, hk, hs, hmem]
  · simp [mem_renderTasks_todo, mem_renderTasks_doing, mem_renderTasks_paused,
      pTodo, pDoing, pPaused, hk, hs, hmem]
  · simp [mem_renderTasks_deep, pDeep, hk, hq, hw, hmem]

/-- Witness for C4: a concrete new quick-action task lands in the quick
bucket only and in the todo bucket only. -/
theorem renderTasks_partition_witness :
    (let c := renderTasks "" "" [⟨1, "new", "quick_action", "high", "P", "S", 0⟩]
     let t : Task := ⟨1, "new", "quick_action", "high", "P", "S", 0⟩
     ((t ∈ c.quick ∧ t ∉ c.deep ∧ t ∉ c.waiting) ∨
      (t ∈ c.deep ∧ t ∉ c.quick ∧ t ∉ c.waiting) ∨
      (t ∈ c.waiting ∧ t ∉ c.quick ∧ t ∉ c.deep)) ∧
     (t.status = "new" → t ∈ c.todo ∧ t ∉ c.doing ∧ t ∉ c.paused) ∧
     (t.status = "in_progress" → t ∈ c.doing ∧ t ∉ c.todo ∧ t ∉ c.paused) ∧
     (t.status = "paused" → t ∈ c.paused ∧ t ∉ c.todo ∧ t ∉ c.doing) ∧
     (t.triage_category ≠ "quick_action" → t.triage_category ≠ "waiting_for" →
       t ∈ c.deep)) :=
  renderTasks_partition [⟨1, "new", "quick_action", "high", "P", "S", 0⟩] "" ""
    ⟨1, "new", "quick_action", "high", "P", "S", 0⟩
    (by simp) (by decide) (by decide) (Or.inl rfl) (Or.inl rfl)

/-- The newline replacement leaves no CR or LF in its output. -/
theorem stripNewlines_no_newline :
    ∀ s : List Char, '\n' ∉ stripNewlines s ∧ '\r' ∉ stripNewlines s := by
  intro s
  induction s using stripNewlines.induct <;> simp_all [stripNewlines, eq_comm]

/-- Quote doubling keeps exactly the characters of its input. -/
theorem mem_doubleQuotes : ∀ (l : List Char) (c : Char), c ∈ doubleQuotes l ↔ c ∈ l := by
  intro l c
  induction l using doubleQuotes.induct
  all_goals simp_all [doubleQuotes]

/-- Quote doubling exactly doubles the number of double-quote characters. -/
theorem count_doubleQuotes_quote :
    ∀ l : List Char, (doubleQuotes l).count '"' = 2 * l.count '"' := by
  intro l
  induction l using doubleQuotes.induct <;>
    simp_all [doubleQuotes, List.count_cons] <;> omega

/-- Quote doubling leaves the multiplicity of every other character
unchanged. -/
theorem count_doubleQuotes_other :
    ∀ (l : List Char) (c : Char), c ≠ '"' → (doubleQuotes l).count c = l.count c := by
  intro l c hc
  induction l using doubleQuotes.induct <;>
    simp_all [doubleQuotes, List.count_cons]

/-- Claim C5 is false on the code: escapeCSV wraps a field in double
quotes (doubling internal quotes) only when it contains a comma.  The
concrete field a"b contains a double quote, yet its escaped form is the
field unchanged: it is not wrapped (its first character is not a quote)
and its quote is not doubled, where the claim requires the output
"a""b". -/
theorem escapeCSV_quote_not_wrapped :
    escapeCSV ['a', '"', 'b'] = ['a', '"', 'b'] ∧
    '"' ∈ (['a', '"', 'b'] : List Char) ∧
    (escapeCSV ['a', '"', 'b']).head? ≠ some '"' ∧
    (escapeCSV ['a', '"', 'b']).count '"' = 1 := by decide

/-- Claim C5 amended: in the CSV export, every newline (CR, LF, or a
CRLF pair) inside a field is replaced with a space, and a field
containing a comma is wrapped in double quotes with each internal quote
doubled; a nonempty field containing no comma is emitted as-is after
newline replacement, even when it contains double quotes. -/
theorem escapeCSV_escaping :
    ∀ s : List Char,
      ('\n' ∉ escapeCSV s ∧ '\r' ∉ escapeCSV s) ∧
      (',' ∈ stripNewlines s →
        escapeCSV s = '"' :: (doubleQuotes (stripNewlines s) ++ ['"']) ∧
        (escapeCSV s).count '"' = 2 * (stripNewlines s).count '"' + 2) ∧
      (s ≠ [] → ',' ∉ stripNewlines s → escapeCSV s = stripNewlines s) := by
  intro s
  have hs := stripNewlines_no_newline s
  refine ⟨?_, fun hcomma => ?_, fun hne hnc => ?_⟩
  · by_cases h1 : s = []
    · subst h1; decide
    · by_cases h2 : ',' ∈ stripNewlines s
      · have heq : escapeCSV s = '"' :: (doubleQuotes (stripNewlines s) ++ ['"']) := by
          simp [escapeCSV, h1, h2]
        rw [heq]
        constructor <;> intro hmem <;>
          simp only [List.mem_cons, List.mem_append, List.mem_singleton,
            mem_doubleQuotes] at hmem <;>
          rcases hmem with h | h | h <;> simp_all
      · have heq : escapeCSV s = stripNewlines s := by simp [escapeCSV, h1, h2]
        rw [heq]
        exact hs
  · have hne : s ≠ [] := by
      intro h
      subst h
      simp [stripNewlines] at hcomma
    constructor
    · simp [escapeCSV, hne, hcomma]
    · simp [escapeCSV, hne, hcomma, List.count_cons, List.count_append,
        count_doubleQuotes_quote]
  · simp [escapeCSV, hne, hnc]

/-- Witness for C5 amended: a field with a comma, a quote and a newline
is escaped into the wrapped, quote-doubled, newline-stripped form. -/
theorem escapeCSV_escaping_witness :
    escapeCSV ['a', ',', '"', '\n', 'b'] = ['"', 'a', ',', '"', '"', ' ', 'b', '"'] := by
  have h := ((escapeCSV_escaping ['a', ',', '"', '\n', 'b']).2.1 (by decide)).1
  rw [h]
  decide

theorem mutCount_nil : mutCount [] = 0 := rfl

theorem mutCount_append (a b : List Step) : mutCount (a ++ b) = mutCount a + mutCount b := by
  simp [mutCount, List.filter_append]

theorem mutCount_cons (s : Step) (l : List Step) :
    mutCount (s :: l) = (if isMutation s then 1 else 0) + mutCount l := by
  simp only [mutCount, List.filter_cons]
  split_ifs <;> simp [Nat.add_comm]

theorem mutCount_getTasksSteps (o : Outcome) : mutCount (getTasksSteps o) = 0 := by
  cases o <;> rfl

theorem mutCount_updateTaskSteps (id : Nat) (o tasksO : Outcome) :
    mutCount (updateTaskSteps id o tasksO) = 1 := by
  cases o <;> cases tasksO <;> rfl

theorem mutCount_confirmDeleteSteps (id : Nat) (o tasksO : Outcome) :
    mutCount (confirmDeleteSteps id o tasksO) = 1 := by
  cases o <;> cases tasksO <;> rfl

/-- Claim C6 is false on the code: confirmDelete does not await a
success response before re-fetching.  With a non-2xx response to the
DELETE of task 7, the flow still issues the GET /api/tasks re-fetch and
still shows the 3-second "Deleted" success message, where the claim
requires the re-fetch to happen only after a success response. -/
theorem confirmDelete_refetch_without_success :
    Step.request "GET" "/api/tasks" ∈ confirmDeleteSteps 7 .httpError .success ∧
    Step.message "success" 3000 ∈ confirmDeleteSteps 7 .httpError .success ∧
    Step.snapshotReplace ∈ confirmDeleteSteps 7 .httpError .success := by decide

/-- Claim C6 amended: status and category changes (updateTask) issue
exactly one mutation request (the PUT) and re-fetch the snapshot only
after a success response, replacing the snapshot only from a successful
GET; reply-send issues the POST plus, when a delegation is staged and
the POST succeeded, exactly one further PUT, and re-fetches only after
the POST succeeds; delegation staging issues no request at all; deletion
issues exactly one DELETE but triggers the re-fetch and a success
message without awaiting a success response (unless the fetch itself
rejects, in which case nothing further runs); the snapshot is never
replaced except from a successful GET /api/tasks. -/
theorem mutation_roundtrip :
    ∀ (id : Nat) (o tasksO : Outcome) (pending : Option Upd) (updO t1 t2 : Outcome)
      (name : String),
      (mutCount (updateTaskSteps id o tasksO) = 1 ∧
       (Step.request "GET" "/api/tasks" ∈ updateTaskSteps id o tasksO → o = .success) ∧
       (Step.snapshotReplace ∈ updateTaskSteps id o tasksO →
         o = .success ∧ tasksO = .success)) ∧
      (mutCount (confirmDeleteSteps id o tasksO) = 1 ∧
       (o ≠ .networkError →
         Step.request "GET" "/api/tasks" ∈ confirmDeleteSteps id o tasksO ∧
         Step.message "success" 3000 ∈ confirmDeleteSteps id o tasksO)) ∧
      (mutCount (sendReplySteps id pending o updO t1 t2) =
        (if o = .success ∧ pending.isSome then 2 else 1) ∧
       (Step.request "GET" "/api/tasks" ∈ sendReplySteps id pending o updO t1 t2 →
         o = .success)) ∧
      mutCount (confirmDelegationSteps name) = 0 ∧
      (Step.snapshotReplace ∈ getTasksSteps o → o = .success) := by
  intro id o tasksO pending updO t1 t2 name
  refine ⟨⟨mutCount_updateTaskSteps id o tasksO, ?_, ?_⟩,
    ⟨mutCount_confirmDeleteSteps id o tasksO, ?_⟩, ⟨?_, ?_⟩, rfl, ?_⟩
  · cases o <;> simp [updateTaskSteps, getTasksSteps]
  · cases o <;> cases tasksO <;> simp [updateTaskSteps, getTasksSteps]
  · intro ho
    cases o <;> cases tasksO <;>
      simp_all [confirmDeleteSteps, getTasksSteps]
  · cases o <;> cases pending <;>
      simp [sendReplySteps, mutCount_cons, mutCount_append, mutCount_getTasksSteps,
        mutCount_updateTaskSteps, mutCount_nil, isMutation]
  · cases o <;> cases pending <;> cases updO <;> cases t1 <;> cases t2 <;>
      simp [sendReplySteps, updateTaskSteps, getTasksSteps]
  · cases o <;> simp [getTasksSteps]

/-- Witness for C6 amended: a successful reply-send with a staged
delegation issues exactly two mutation requests, and a successful
updateTask issues exactly one. -/
theorem mutation_roundtrip_witness :
    mutCount (sendReplySteps 3 (some ⟨"waiting_for", "Ann"⟩)
        .success .success .success .success) = 2 ∧
    mutCount (updateTaskSteps 3 .success .success) = 1 := by
  have h := mutation_roundtrip 3 .success .success (some ⟨"waiting_for", "Ann"⟩)
    .success .success .success "Ann"
  exact ⟨by simpa using h.2.2.1.1, h.1.1⟩

/-- Claim C7 is false on the code: confirmDelete wraps its fetch in no
try/catch, so a network failure of the DELETE of task 7 is not caught:
the trace stops at the request, no message of any kind is surfaced, and
the rejection escapes as an unhandled promise rejection. -/
theorem confirmDelete_network_failure_unhandled :
    confirmDeleteSteps 7 .networkError .success = [Step.request "DELETE" "/api/tasks/7"] ∧
    Step.message "error" 3000 ∉ confirmDeleteSteps 7 .networkError .success ∧
    Step.message "success" 3000 ∉ confirmDeleteSteps 7 .networkError .success ∧
    confirmDeleteEscapes .networkError = true := by decide

/-- Claim C7 amended: network failures at the snapshot fetch (getTasks),
at task updates (updateTask) and at reply sending (sendReply) are caught
and surfaced as a transient error message auto-dismissed after 3000 ms,
and those flows let nothing escape; but a network failure at the
deletion fetch (confirmDelete) is not caught: no message is surfaced and
the rejection escapes unhandled, deletion being the only flow that lets
an outcome escape. -/
theorem network_failure_surfacing :
    ∀ (id : Nat) (pending : Option Upd) (updO t1 t2 : Outcome),
      Step.message "error" 3000 ∈ getTasksSteps .networkError ∧
      Step.message "error" 3000 ∈ updateTaskSteps id .networkError t1 ∧
      Step.message "error" 3000 ∈ sendReplySteps id pending .networkError updO t1 t2 ∧
      Step.message "error" 3000 ∉ confirmDeleteSteps id .networkError t1 ∧
      confirmDeleteEscapes .networkError = true ∧
      (∀ o : Outcome, confirmDeleteEscapes o = true → o = .networkError) := by
  intro id pending updO t1 t2
  refine ⟨by simp [getTasksSteps], ?_, ?_, ?_, rfl, ?_⟩
  · cases t1 <;> simp [updateTaskSteps]
  · cases pending <;> cases updO <;> cases t1 <;> cases t2 <;> simp [sendReplySteps]
  · cases t1 <;> simp [confirmDeleteSteps]
  · intro o ho
    cases o <;> simp_all [confirmDeleteEscapes]

/-- Witness for C7 amended: network failures of concrete getTasks and
updateTask calls surface the 3-second error message, and the sole
escaping outcome is the network failure of confirmDelete. -/
theorem network_failure_surfacing_witness :
    Step.message "error" 3000 ∈ getTasksSteps .networkError ∧
    Step.message "error" 3000 ∈ updateTaskSteps 3 .networkError .success ∧
    Outcome.networkError = Outcome.networkError := by
  have h := network_failure_surfacing 3 none .success .success .success
  exact ⟨h.1, h.2.1, h.2.2.2.2.2 .networkError (by decide)⟩

/-- Claim C8: confirmDelegation only stages the pending update
(triage_category "waiting_for" with the selected name) and issues no
backend request; in sendReply the task-update PUT is issued only when a
pending update is staged and the reply POST (always the first step of
the trace) has succeeded, so an abandoned delegation never reaches the
backend. -/
theorem delegation_staged_no_mutation :
    ∀ (name : String) (id : Nat) (pending : Option Upd) (replyO updO t1 t2 : Outcome),
      (∀ s ∈ confirmDelegationSteps name, isMutation s = false) ∧
      confirmDelegationPending name = some ⟨"waiting_for", name⟩ ∧
      (sendReplySteps id pending replyO updO t1 t2).head? =
        some (.request "POST" (replyUrl id)) ∧
      (Step.request "PUT" (taskUrl id) ∈ sendReplySteps id pending replyO updO t1 t2 →
        replyO = .success ∧ pending.isSome = true) := by
  intro name id pending replyO updO t1 t2
  refine ⟨?_, rfl, rfl, ?_⟩
  · intro s hsmem
    simp only [confirmDelegationSteps, List.mem_singleton] at hsmem
    subst hsmem
    rfl
  · intro hput
    cases replyO <;> cases pending <;> cases updO <;> cases t1 <;> cases t2 <;>
      simp_all [sendReplySteps, updateTaskSteps, getTasksSteps]

/-- Witness for C8: the concrete staged update of a delegation to Ann,
and the message step of the delegation flow is not a mutation. -/
theorem delegation_staged_no_mutation_witness :
    isMutation (Step.message "success" 3000) = false ∧
    confirmDelegationPending "Ann" = some ⟨"waiting_for", "Ann"⟩ :=
  ⟨(delegation_staged_no_mutation "Ann" 1 none .success .success .success .success).1
      _ (by decide),
   (delegation_staged_no_mutation "Ann" 1 none .success .success .success .success).2.1⟩

/-- Claim C9: playSummary preserves the single-playback invariant (at
most one button styled as playing, and none when the shared audio is
clear), and invoking it for button b while another button a is playing
first stops a, leaving b as the only playing button with the freshly
constructed audio as the shared resource. -/
theorem audio_single_playback :
    ∀ (s : AudioState) (b f : Nat),
      audioInv s →
      audioInv (playSummary b f s) ∧
      (∀ a : Nat, s.playing = [a] → b ≠ a →
        (playSummary b f s).playing = [b] ∧ (playSummary b f s).current = some f) := by
  intro s b f hinv
  obtain ⟨hlen, hnone⟩ := hinv
  rcases s with ⟨cur, playing⟩
  rcases playing with _ | ⟨x, _ | ⟨y, rest⟩⟩
  · constructor
    · cases cur <;>
        simp [playSummary, stopSpeaking, audioInv]
    · intro a ha
      simp at ha
  · have hcur : ∃ c, cur = some c := by
      cases cur with
      | none => exact absurd (hnone rfl) (by simp)
      | some c => exact ⟨c, rfl⟩
    obtain ⟨c, rfl⟩ := hcur
    by_cases hbx : b = x
    · subst hbx
      constructor
      · simp [playSummary, stopSpeaking, audioInv]
      · intro a ha hba
        simp at ha
        exact absurd ha hba
    · constructor
      · simp [playSummary, stopSpeaking, audioInv, hbx]
      · intro a ha hba
        simp at ha
        subst ha
        simp [playSummary, stopSpeaking, hbx]
  · exfalso
    simp at hlen

/-- Witness for C9: starting button 7 while button 5 plays audio 0
leaves exactly button 7 playing with the new audio 1. -/
theorem audio_single_playback_witness :
    audioInv ⟨some 0, [5]⟩ ∧
    (playSummary 7 1 ⟨some 0, [5]⟩).playing = [7] ∧
    (playSummary 7 1 ⟨some 0, [5]⟩).current = some 1 := by
  have h := audio_single_playback ⟨some 0, [5]⟩ 7 1 (by simp [audioInv])
  exact ⟨by simp [audioInv], (h.2 5 rfl (by decide)).1, (h.2 5 rfl (by decide)).2⟩

/-- Claim C10: copyReply (for every reply type, once the task id
resolves in the snapshot) and openTaskModal both reset the staged
pendingTaskUpdate to none; in particular a delegation staged by
confirmDelegation is discarded by a later copyReply, and a sendReply
with no staged update issues the reply POST but no task-update PUT,
exactly one mutation request in total. -/
theorem pending_update_reset :
    ∀ (tasks : List Task) (taskId : Nat) (ty name : String) (st : Option Upd)
      (id2 : Nat) (updO t1 t2 : Outcome),
      ((tasks.find? (fun t => t.id == taskId)).isSome = true →
        copyReplyPending tasks taskId ty st = none ∧
        openTaskModalPending tasks taskId st = none ∧
        copyReplyPending tasks taskId ty (confirmDelegationPending name) = none) ∧
      Step.request "PUT" (taskUrl id2) ∉ sendReplySteps id2 none .success updO t1 t2 ∧
      mutCount (sendReplySteps id2 none .success updO t1 t2) = 1 := by
  intro tasks taskId ty name st id2 updO t1 t2
  refine ⟨fun hfind => ?_, ?_, ?_⟩
  · rcases h : tasks.find? (fun t => t.id == taskId) with _ | t
    · rw [h] at hfind
      simp at hfind
    · exact ⟨by simp [copyReplyPending, h], by simp [openTaskModalPending, h],
        by simp [copyReplyPending, h]⟩
  · cases t2 <;> simp [sendReplySteps, getTasksSteps]
  · simp [sendReplySteps, mutCount_cons, mutCount_append, mutCount_getTasksSteps,
      mutCount_nil, isMutation]

/-- Witness for C10: with a one-task snapshot, staging a delegation to
Ann and then choosing the acknowledge reply leaves no staged update, and
the reply-send with no staged update contains no PUT. -/
theorem pending_update_reset_witness :
    copyReplyPending [⟨1, "new", "deep_work", "low", "P", "S", 0⟩] 1 "acknowledge"
      (confirmDelegationPending "Ann") = none ∧
    Step.request "PUT" (taskUrl 3) ∉
      sendReplySteps 3 none .success .success .success .success :=
  ⟨((pending_update_reset [⟨1, "new", "deep_work", "low", "P", "S", 0⟩] 1 "acknowledge"
      "Ann" none 3 .success .success .success).1 (by decide)).2.2,
   (pending_update_reset [⟨1, "new", "deep_work", "low", "P", "S", 0⟩] 1 "acknowledge"
      "Ann" none 3 .success .success .success).2.1⟩

end Happy3
